import Mathlib

/-! Verification development for the fullcycle-otel repository: a gateway
service (service-a, src/cmd/service-a/main.go) that validates a Brazilian
postal code (CEP) and forwards it, and a resolver service (service-b) that
turns the code into a city via viacep and queries weatherapi, aggregating
the result. Network exchanges are modelled as explicit oracle values
describing what each outbound call returned; float64 temperatures are
modelled as rationals; every outbound call a handler attempts is recorded
in an explicit call list.
-/

set_option autoImplicit false

namespace FullcycleOtel

/-! ### Validator (service-a: validateZip, src/cmd/service-a/main.go) -/

def CEP_SIZE : Nat := 8

/-- The maximal runs of decimal digits of a character list, in order: the
result of Go's `regexp.MustCompile` on pattern backslash-d-plus followed by
`FindAllString(zip, -1)`. `cur` accumulates (reversed) the digits of the run
currently being scanned. -/
def findAllDigitRuns (cur : List Char) : List Char → List (List Char)
  | [] => if cur = [] then [] else [cur.reverse]
  | c :: cs =>
    if c.isDigit then findAllDigitRuns (c :: cur) cs
    else if cur = [] then findAllDigitRuns [] cs
    else cur.reverse :: findAllDigitRuns [] cs

/-- Go `strings.Join(match, "")` over the regexp matches: the digit-normalized
zip string. -/
def normalizeZip (zip : String) : String :=
  ⟨(findAllDigitRuns [] zip.data).flatten⟩

/-- Function `validateZip` from src/cmd/service-a/main.go: normalize, then accept
iff the normalized length is exactly `CEP_SIZE`. -/
def validateZip (zip : String) : Except String String :=
  let z := normalizeZip zip
  if z.data.length ≠ CEP_SIZE then .error "invalid zipcode"
  else .ok z

theorem findAllDigitRuns_join (s : List Char) :
    ∀ cur, (findAllDigitRuns cur s).flatten = cur.reverse ++ s.filter Char.isDigit := by
  induction s with
  | nil =>
    intro cur
    by_cases h : cur = [] <;> simp [findAllDigitRuns, h]
  | cons c cs ih =>
    intro cur
    by_cases hd : c.isDigit
    · simp [findAllDigitRuns, hd, ih, List.reverse_cons, List.append_assoc]
    · by_cases h : cur = [] <;>
        simp [findAllDigitRuns, hd, h, ih, List.filter_cons]

theorem normalizeZip_data (zip : String) :
    (normalizeZip zip).data = zip.data.filter Char.isDigit := by
  simp [normalizeZip, findAllDigitRuns_join]

theorem validateZip_eq (zip : String) :
    validateZip zip =
      if (zip.data.filter Char.isDigit).length = 8
      then .ok (normalizeZip zip) else .error "invalid zipcode" := by
  by_cases h : (zip.data.filter Char.isDigit).length = 8 <;>
    simp [validateZip, CEP_SIZE, normalizeZip_data, h]

/-! ### Data model

`Response` is the aggregated JSON shape shared verbatim by both services.
Go float64 temperatures are modelled as rationals. -/

structure Response where
  City : String
  TempC : ℚ
  TempF : ℚ
  TempK : ℚ
deriving DecidableEq, Repr

/-- The zero value `Response` (Go composite literal with no fields). -/
def zeroResponse : Response := ⟨"", 0, 0, 0⟩

/-- One outbound HTTP call a handler attempted, with the data that went
into building it. -/
inductive OutboundCall
  | viaCep (url : String)
  | weatherApi (q : String) (key : String)
  | serviceB (zip : String) (apiKey : String)
deriving DecidableEq, Repr

/-- Go `fmt.Sprintf` of the viacep base URL with the raw zip interpolated. -/
def viaCepURL (zip : String) : String :=
  "http://viacep.com.br/ws/" ++ zip ++ "/json/"

/-- What one response body of the weather provider parses to: the values
behind `current.temp_c` and `current.temp_f`, each `none` when the field is
absent or not a number (fastjson's `GetFloat64` then yields the 0 default). -/
structure WeatherDoc where
  temp_c : Option ℚ
  temp_f : Option ℚ
deriving DecidableEq, Repr

/-- fastjson `Value.GetFloat64`: the parsed number, or 0 as default. -/
def fastjsonGetFloat64 (v : Option ℚ) : ℚ := v.getD 0

/-- fastjson `GetString`: the parsed string, or the empty string as default
(field absent or unparseable body). -/
def fastjsonGetString (v : Option String) : String := v.getD ""

/-- Outcome of the viacep exchange as `getLocation` observes it:
`client.Do` transport error, `io.ReadAll` failure, or a body whose
`localidade` field is `v`. -/
inductive LocExchange
  | transportError (msg : String)
  | readError (msg : String)
  | body (localidade : Option String)
deriving DecidableEq, Repr

/-- Outcome of the weatherapi exchange as `getTempFromAPI` observes it:
transport error, read failure, fastjson parse failure, or a parsed doc. -/
inductive WeatherExchange
  | transportError (msg : String)
  | readError (msg : String)
  | parseError (msg : String)
  | parsed (doc : WeatherDoc)
deriving DecidableEq, Repr

/-! ### Resolver service (service-b, src/unnamed/part_000) -/

/-- Function `getLocation`: build the viacep URL with the raw zip, perform the
lookup, read `localidade`; empty result is "can not find zipcode". The
second component records the outbound call that was attempted. -/
def getLocation (zip : String) (ex : LocExchange) :
    Except String String × List OutboundCall :=
  let URL := viaCepURL zip
  let calls := [OutboundCall.viaCep URL]
  match ex with
  | .transportError m => (.error m, calls)
  | .readError m => (.error m, calls)
  | .body v =>
    let location := fastjsonGetString v
    if location = "" then (.error "can not find zipcode", calls)
    else (.ok location, calls)

/-- Function `getTempFromAPI`: query weatherapi with `q=location` and the key, parse
`current.temp_c` and `current.temp_f` (0-defaulted), set
`TempK = TempC + 273`, then reject any reading whose `TempC` is exactly 0
as "invalid API key". -/
def getTempFromAPI (location : String) (apiKey : String) (ex : WeatherExchange) :
    Except String Response × List OutboundCall :=
  let calls := [OutboundCall.weatherApi location apiKey]
  match ex with
  | .transportError m => (.error m, calls)
  | .readError m => (.error m, calls)
  | .parseError m => (.error m, calls)
  | .parsed doc =>
    let tempC := fastjsonGetFloat64 doc.temp_c
    let tempF := fastjsonGetFloat64 doc.temp_f
    let weather : Response := { City := "", TempC := tempC, TempF := tempF, TempK := tempC + 273 }
    if weather.TempC = 0 then (.error "error getting weather, invalid API key", calls)
    else (.ok weather, calls)

/-- An HTTP response body written by a handler. -/
inductive Body
  | errorMsg (msg : String)
  | json (r : Response)
deriving DecidableEq, Repr

/-- What one handler invocation produced: status code, body, and the list
of outbound network calls it attempted, in order. -/
structure HandlerResult where
  status : Nat
  body : Body
  calls : List OutboundCall
deriving DecidableEq, Repr

/-- A service-b inbound request: HTTP method, the raw `zip` query
parameter, and the `api_key` header (empty when absent). -/
structure BRequest where
  method : String
  zip : String
  api_key : String
deriving DecidableEq, Repr

/-- The network behaviour a single service-b request would observe. -/
structure BNet where
  loc : LocExchange
  weather : WeatherExchange
deriving DecidableEq, Repr

/-- Function `getTemp`, the service-b handler: method check, api_key check, then
`getLocation`, then `getTempFromAPI`, then fill in `City` and answer 200. -/
def getTemp (r : BRequest) (net : BNet) : HandlerResult :=
  if r.method ≠ "GET" then ⟨405, .errorMsg "Method not allowed", []⟩
  else if r.api_key = "" then ⟨400, .errorMsg "api_key is required", []⟩
  else
    match getLocation r.zip net.loc with
    | (.error e, c1) => ⟨400, .errorMsg e, c1⟩
    | (.ok location, c1) =>
      match getTempFromAPI location r.api_key net.weather with
      | (.error e, c2) => ⟨400, .errorMsg e, c1 ++ c2⟩
      | (.ok res, c2) => ⟨200, .json { res with City := location }, c1 ++ c2⟩

/-! ### Gateway service (service-a, src/cmd/service-a/main.go) -/

/-- A service-a inbound request: HTTP method, the result of JSON-decoding
the body into the `CEP` struct (`.ok cep` yields the decoded `cep` field,
which is `""` when the field is absent), and the `api_key` header. -/
structure ARequest where
  method : String
  bodyDecode : Except String String
  api_key : String
deriving Repr

/-- Outcome of the call to service-b as `getTempFromLocal` observes it: a
`client.Do` transport error, or a response carrying a status code, the
value `rr` holds after the JSON decode of the body (zero or partial on a
failed decode), and the decode error, if any, which the source discards. -/
inductive DownstreamExchange
  | transportError (msg : String)
  | response (statusCode : Nat) (rr : Response) (decodeErr : Option String)
deriving DecidableEq, Repr

/-- Function `getTempFromLocal`: GET service-b with `zip` and the `api_key` header.
On a transport error the error propagates; on a non-200 status the source
runs `return` of the zero `Response` together with `err`, which is nil on
that path, so the caller sees success with the zero value; on a 200 the
decoded (possibly partial) value is returned and the decode error is
discarded (`return rr, nil`). -/
def getTempFromLocal (zip : String) (apiKey : String) (ex : DownstreamExchange) :
    Except String Response × List OutboundCall :=
  let calls := [OutboundCall.serviceB zip apiKey]
  match ex with
  | .transportError m => (.error m, calls)
  | .response statusCode rr _decodeErr =>
    if statusCode ≠ 200 then (.ok zeroResponse, calls)
    else (.ok rr, calls)

/-- Function `getTempFromZip`, the service-a handler: method check, body decode,
api_key check, `validateZip` (422 on failure), then forward to service-b
and answer 200 with whatever `getTempFromLocal` returned without error. -/
def getTempFromZip (r : ARequest) (ex : DownstreamExchange) : HandlerResult :=
  if r.method ≠ "POST" then ⟨405, .errorMsg "Method not allowed", []⟩
  else
    match r.bodyDecode with
    | .error e => ⟨400, .errorMsg e, []⟩
    | .ok cep =>
      if r.api_key = "" then ⟨400, .errorMsg "api_key is required", []⟩
      else
        match validateZip cep with
        | .error e => ⟨422, .errorMsg e, []⟩
        | .ok zip =>
          match getTempFromLocal zip r.api_key ex with
          | (.error e, c) => ⟨400, .errorMsg e, c⟩
          | (.ok res, c) => ⟨200, .json res, c⟩

/-! ### Trace-context propagation model

OpenTelemetry pieces the handlers use: a context either carries a span
context (trace id, span id) or is the empty background context; `Start` on
a context carrying a span begins a child span in the same trace, while
`Start` on the background context begins a fresh trace; `Extract` reads a
span context from carrier headers; `Inject` writes the context's span
into headers. Fresh ids are drawn from a counter `gen`. -/

structure SpanContext where
  traceId : Nat
  spanId : Nat
deriving DecidableEq, Repr

inductive Ctx
  | background
  | withSpan (sc : SpanContext)
deriving DecidableEq, Repr

/-- Otel `tracer.Start`: child of the context's span when there is one, root of
a fresh trace otherwise. Returns the new context, the started span's
context and the advanced id counter. -/
def tracerStart (ctx : Ctx) (gen : Nat) : Ctx × SpanContext × Nat :=
  match ctx with
  | .background => (.withSpan ⟨gen, gen + 1⟩, ⟨gen, gen + 1⟩, gen + 2)
  | .withSpan p => (.withSpan ⟨p.traceId, gen⟩, ⟨p.traceId, gen⟩, gen + 1)

/-- Otel `propagator.Extract` from carrier headers onto the background context. -/
def extractCtx (headers : Option SpanContext) : Ctx :=
  match headers with
  | none => .background
  | some sc => .withSpan sc

/-- Otel `propagator.Inject` of a context into carrier headers. -/
def injectCtx (ctx : Ctx) : Option SpanContext :=
  match ctx with
  | .background => none
  | .withSpan sc => some sc

/-- The trace-context flow of one gateway request, exactly as the source
sequences it: `getTempFromZip` extracts the inbound headers and starts the
"service-a" span on the extracted context; then `getTempFromLocal` starts
the "outgoing request to service-b" span on `context.Background()` — not on
the handler's context — and injects that context into the outbound request
headers. Returns the gateway's inbound-request span and the injected
outbound headers. -/
def gatewayTraceFlow (inboundHeaders : Option SpanContext) (gen : Nat) :
    SpanContext × Option SpanContext :=
  let ctx := extractCtx inboundHeaders
  let (_ctxA, spanA, gen1) := tracerStart ctx gen
  let (ctxOut, _spanOut, _gen2) := tracerStart Ctx.background gen1
  (spanA, injectCtx ctxOut)

instance {ε α : Type} [DecidableEq ε] [DecidableEq α] : DecidableEq (Except ε α)
  | .error a, .error b =>
    if h : a = b then isTrue (h ▸ rfl) else isFalse (fun hc => h (Except.error.inj hc))
  | .error _, .ok _ => isFalse (fun hc => Except.noConfusion hc)
  | .ok _, .error _ => isFalse (fun hc => Except.noConfusion hc)
  | .ok a, .ok b =>
    if h : a = b then isTrue (h ▸ rfl) else isFalse (fun hc => h (Except.ok.inj hc))

/-! ### Claim theorems -/

/-- Claim C3: for every input string, `validateZip`'s normalization produces a
string of only digit characters whose length is the number of digit
characters of the input, and the result is accepted (`.ok`) exactly when
that digit count is 8. -/
theorem validateZip_normalization_spec (zip : String) :
    (normalizeZip zip).data = zip.data.filter Char.isDigit ∧
    (∀ c, c ∈ (normalizeZip zip).data → c.isDigit) ∧
    (normalizeZip zip).data.length = (zip.data.filter Char.isDigit).length ∧
    (validateZip zip =
      if (zip.data.filter Char.isDigit).length = 8
      then .ok (normalizeZip zip) else .error "invalid zipcode") := by
  refine ⟨normalizeZip_data zip, ?_, ?_, validateZip_eq zip⟩
  · intro c hc
    rw [normalizeZip_data] at hc
    exact (List.mem_filter.mp hc).2
  · rw [normalizeZip_data]

theorem validateZip_normalization_spec_witness :
    (normalizeZip "12345-678x").data = "12345-678x".data.filter Char.isDigit ∧
    validateZip "12345-678x" = .ok "12345678" := by
  have h := validateZip_normalization_spec "12345-678x"
  refine ⟨h.1, ?_⟩
  rw [h.2.2.2, if_pos (by decide)]
  decide

/-- Claim C4: a weather-provider response that parses but whose Celsius value is
the exact zero default (absent, unparseable, or a true 0 reading) makes
`getTempFromAPI` return the invalid-credential error, not a reading. -/
theorem getTempFromAPI_zero_celsius_fails (location apiKey : String) (doc : WeatherDoc)
    (h : fastjsonGetFloat64 doc.temp_c = 0) :
    (getTempFromAPI location apiKey (.parsed doc)).1 =
      .error "error getting weather, invalid API key" := by
  simp [getTempFromAPI, h]

theorem getTempFromAPI_zero_celsius_fails_witness :
    fastjsonGetFloat64 (WeatherDoc.mk none (some 77)).temp_c = 0 ∧
    (getTempFromAPI "Sao Paulo" "key" (.parsed ⟨none, some 77⟩)).1 =
      .error "error getting weather, invalid API key" :=
  ⟨rfl, getTempFromAPI_zero_celsius_fails "Sao Paulo" "key" ⟨none, some 77⟩ rfl⟩

/-- Claim C5: on either service, a request whose api_key header is empty makes
no outbound network call and is answered with a client-error status; when
the HTTP method matches the endpoint the status is exactly 400. -/
theorem missing_api_key_no_outbound :
    (∀ (r : ARequest) (ex : DownstreamExchange), r.api_key = "" →
      (getTempFromZip r ex).calls = [] ∧
      400 ≤ (getTempFromZip r ex).status ∧ (getTempFromZip r ex).status < 500 ∧
      (r.method = "POST" → (getTempFromZip r ex).status = 400)) ∧
    (∀ (r : BRequest) (net : BNet), r.api_key = "" →
      (getTemp r net).calls = [] ∧
      400 ≤ (getTemp r net).status ∧ (getTemp r net).status < 500 ∧
      (r.method = "GET" → (getTemp r net).status = 400)) := by
  constructor
  · intro r ex hk
    by_cases hm : r.method = "POST"
    · rcases hb : r.bodyDecode with e | cep <;>
        simp [getTempFromZip, hm, hb, hk]
    · simp [getTempFromZip, hm]
  · intro r net hk
    by_cases hm : r.method = "GET" <;> simp [getTemp, hm, hk]

theorem missing_api_key_no_outbound_witness :
    ((getTempFromZip ⟨"POST", .ok "12345678", ""⟩ (.transportError "x")).calls = [] ∧
      (getTempFromZip ⟨"POST", .ok "12345678", ""⟩ (.transportError "x")).status = 400) ∧
    ((getTemp ⟨"GET", "01001000", ""⟩
        ⟨.body (some "Sao Paulo"), .parsed ⟨some 25, some 77⟩⟩).calls = [] ∧
      (getTemp ⟨"GET", "01001000", ""⟩
        ⟨.body (some "Sao Paulo"), .parsed ⟨some 25, some 77⟩⟩).status = 400) := by
  have ha := missing_api_key_no_outbound.1 ⟨"POST", .ok "12345678", ""⟩ (.transportError "x") rfl
  have hb := missing_api_key_no_outbound.2 ⟨"GET", "01001000", ""⟩
    ⟨.body (some "Sao Paulo"), .parsed ⟨some 25, some 77⟩⟩ rfl
  exact ⟨⟨ha.1, ha.2.2.2 rfl⟩, ⟨hb.1, hb.2.2.2 rfl⟩⟩

/-- Claim C7: a gateway request with matching method, a decodable body, a
non-empty credential and a postal code whose digit count is not 8 is
answered 422 "invalid zipcode" with no outbound call (not forwarded). -/
theorem getTempFromZip_422_no_forward (r : ARequest) (ex : DownstreamExchange) (cep : String)
    (hm : r.method = "POST") (hb : r.bodyDecode = .ok cep) (hk : r.api_key ≠ "")
    (hv : (cep.data.filter Char.isDigit).length ≠ 8) :
    getTempFromZip r ex = ⟨422, .errorMsg "invalid zipcode", []⟩ := by
  simp [getTempFromZip, hm, hb, hk, validateZip_eq, hv]

theorem getTempFromZip_422_no_forward_witness :
    getTempFromZip ⟨"POST", .ok "123", "key"⟩ (.transportError "x") =
      ⟨422, .errorMsg "invalid zipcode", []⟩ :=
  getTempFromZip_422_no_forward _ _ "123" rfl rfl (by decide) (by decide)

/-- Claim C6: within one service-b request, a weather call is attempted only for
a location that `getLocation` successfully resolved; if resolution fails no
weather call is ever attempted; and a 200 response exists only when both
resolution and fetch succeeded, its body being the aggregate of the two. -/
theorem getTemp_resolution_before_fetch (r : BRequest) (net : BNet) :
    (∀ q k, OutboundCall.weatherApi q k ∈ (getTemp r net).calls →
      (getLocation r.zip net.loc).1 = .ok q ∧ k = r.api_key) ∧
    (∀ e, (getLocation r.zip net.loc).1 = .error e →
      ∀ q k, OutboundCall.weatherApi q k ∉ (getTemp r net).calls) ∧
    ((getTemp r net).status = 200 →
      ∃ loc res, (getLocation r.zip net.loc).1 = .ok loc ∧
        (getTempFromAPI loc r.api_key net.weather).1 = .ok res ∧
        (getTemp r net).body = .json { res with City := loc }) := by
  rcases net with ⟨loc, weather⟩
  by_cases hm : r.method = "GET"
  case neg => simp [getTemp, hm]
  by_cases hk : r.api_key = ""
  · simp [getTemp, hm, hk]
  rcases loc with m | m | v
  · simp [getTemp, getLocation, hm, hk]
  · simp [getTemp, getLocation, hm, hk]
  by_cases hv : fastjsonGetString v = ""
  · simp [getTemp, getLocation, hm, hk, hv]
  rcases weather with m | m | m | doc
  · simp [getTemp, getLocation, getTempFromAPI, hm, hk, hv]
  · simp [getTemp, getLocation, getTempFromAPI, hm, hk, hv]
  · simp [getTemp, getLocation, getTempFromAPI, hm, hk, hv]
  by_cases hc : fastjsonGetFloat64 doc.temp_c = 0
  · simp [getTemp, getLocation, getTempFromAPI, hm, hk, hv, hc]
  · simp [getTemp, getLocation, getTempFromAPI, hm, hk, hv, hc]

theorem getTemp_resolution_before_fetch_witness :
    (getLocation "01001000" (.transportError "dial fail")).1 = .error "dial fail" ∧
    OutboundCall.weatherApi "Sao Paulo" "key" ∉
      (getTemp ⟨"GET", "01001000", "key"⟩
        ⟨.transportError "dial fail", .parsed ⟨some 25, some 77⟩⟩).calls := by
  have h := getTemp_resolution_before_fetch ⟨"GET", "01001000", "key"⟩
    ⟨.transportError "dial fail", .parsed ⟨some 25, some 77⟩⟩
  exact ⟨rfl, h.2.1 "dial fail" rfl "Sao Paulo" "key"⟩

/-- Claim C1 (amended): for every aggregated response service-b produces,
Kelvin equals Celsius plus 273 exactly, but Fahrenheit is taken verbatim
from the provider's `current.temp_f` field (0-defaulted) — independently
fetched, not derived from Celsius. -/
theorem getTemp_kelvin_derived_fahrenheit_fetched (r : BRequest) (net : BNet) (res : Response)
    (h : (getTemp r net).body = .json res) :
    res.TempK = res.TempC + 273 ∧
    ∃ doc, net.weather = .parsed doc ∧
      res.TempC = fastjsonGetFloat64 doc.temp_c ∧
      res.TempF = fastjsonGetFloat64 doc.temp_f := by
  rcases net with ⟨loc, weather⟩
  by_cases hm : r.method = "GET"
  case neg => simp [getTemp, hm] at h
  by_cases hk : r.api_key = ""
  · simp [getTemp, hm, hk] at h
  rcases loc with m | m | v
  · simp [getTemp, getLocation, hm, hk] at h
  · simp [getTemp, getLocation, hm, hk] at h
  by_cases hv : fastjsonGetString v = ""
  · simp [getTemp, getLocation, hm, hk, hv] at h
  rcases weather with m | m | m | doc
  · simp [getTemp, getLocation, getTempFromAPI, hm, hk, hv] at h
  · simp [getTemp, getLocation, getTempFromAPI, hm, hk, hv] at h
  · simp [getTemp, getLocation, getTempFromAPI, hm, hk, hv] at h
  by_cases hc : fastjsonGetFloat64 doc.temp_c = 0
  · simp [getTemp, getLocation, getTempFromAPI, hm, hk, hv, hc] at h
  · simp [getTemp, getLocation, getTempFromAPI, hm, hk, hv, hc] at h
    subst h
    exact ⟨rfl, doc, rfl, rfl, rfl⟩

theorem getTemp_kelvin_derived_fahrenheit_fetched_witness :
    (getTemp ⟨"GET", "01001000", "key"⟩
        ⟨.body (some "Sao Paulo"), .parsed ⟨some 25, some 77⟩⟩).body =
      .json ⟨"Sao Paulo", 25, 77, 298⟩ ∧
    (298 : ℚ) = 25 + 273 := by
  have hbody : (getTemp ⟨"GET", "01001000", "key"⟩
      ⟨.body (some "Sao Paulo"), .parsed ⟨some 25, some 77⟩⟩).body =
        .json ⟨"Sao Paulo", 25, 77, 298⟩ := by
    norm_num [getTemp, getLocation, getTempFromAPI, fastjsonGetString, fastjsonGetFloat64]
    rw [if_neg (show ¬("key" = "") by decide), if_neg (show ¬("Sao Paulo" = "") by decide)]
  have h := getTemp_kelvin_derived_fahrenheit_fetched ⟨"GET", "01001000", "key"⟩
    ⟨.body (some "Sao Paulo"), .parsed ⟨some 25, some 77⟩⟩
    ⟨"Sao Paulo", 25, 77, 298⟩ hbody
  exact ⟨hbody, h.1⟩

/-- Claim C1 counterexample: a provider response with `temp_c` 25 and `temp_f`
100 yields an aggregated response whose Fahrenheit field is 100, not
25×9/5+32 = 77: Fahrenheit is not derived from Celsius. -/
theorem getTemp_fahrenheit_not_derived :
    (getTemp ⟨"GET", "01001000", "key"⟩
        ⟨.body (some "Sao Paulo"), .parsed ⟨some 25, some 100⟩⟩).body =
      .json ⟨"Sao Paulo", 25, 100, 298⟩ ∧
    (100 : ℚ) ≠ 25 * 9 / 5 + 32 := by
  refine ⟨?_, by norm_num⟩
  norm_num [getTemp, getLocation, getTempFromAPI, fastjsonGetString, fastjsonGetFloat64]
  rw [if_neg (show ¬("key" = "") by decide), if_neg (show ¬("Sao Paulo" = "") by decide)]

/-- Claim C2 failing input: a well-formed gateway request whose downstream call
answers status 400. The source's `getTempFromLocal` hits the branch for a
non-200 status but returns the nil transport error, so the gateway answers
200 with the zero-valued aggregate instead of forwarding the 400. -/
theorem getTempFromZip_downstream_400_yields_200 :
    getTempFromZip ⟨"POST", .ok "01001000", "key"⟩ (.response 400 zeroResponse none) =
      ⟨200, .json zeroResponse, [.serviceB "01001000" "key"]⟩ := rfl

/-- Claim C8 failing input: the gateway starts its outbound span on
`context.Background()` instead of the handler's context, so the injected
outbound trace context carries a freshly generated trace id different from
the trace id of the gateway's own inbound-request span: the downstream
parent is not a descendant of the gateway span. -/
theorem gatewayTraceFlow_breaks_trace (sc : SpanContext) (gen : Nat)
    (h : sc.traceId < gen) :
    ∃ out, (gatewayTraceFlow (some sc) gen).2 = some out ∧
      out.traceId ≠ (gatewayTraceFlow (some sc) gen).1.traceId := by
  refine ⟨⟨gen + 1, gen + 2⟩, rfl, ?_⟩
  simp only [gatewayTraceFlow, tracerStart, extractCtx, injectCtx]
  omega

theorem gatewayTraceFlow_breaks_trace_witness :
    (5 : Nat) < 100 ∧
    ∃ out, (gatewayTraceFlow (some ⟨5, 6⟩) 100).2 = some out ∧
      out.traceId ≠ (gatewayTraceFlow (some ⟨5, 6⟩) 100).1.traceId :=
  ⟨by decide, gatewayTraceFlow_breaks_trace ⟨5, 6⟩ 100 (by decide)⟩

/-- Claim C9: when the downstream call answers 200 but the body fails to decode,
`getTempFromLocal` returns the partially decoded value with a nil error
(the decode error is discarded), so the gateway answers 200 with it. -/
theorem getTempFromZip_discards_decode_error (r : ARequest) (cep zipN : String)
    (rr : Response) (e : String)
    (hm : r.method = "POST") (hb : r.bodyDecode = .ok cep) (hk : r.api_key ≠ "")
    (hv : validateZip cep = .ok zipN) :
    getTempFromZip r (.response 200 rr (some e)) =
      ⟨200, .json rr, [.serviceB zipN r.api_key]⟩ := by
  simp [getTempFromZip, getTempFromLocal, hm, hb, hk, hv]

theorem getTempFromZip_discards_decode_error_witness :
    getTempFromZip ⟨"POST", .ok "12345678", "key"⟩
        (.response 200 ⟨"X", 1, 2, 3⟩ (some "unexpected EOF")) =
      ⟨200, .json ⟨"X", 1, 2, 3⟩, [.serviceB "12345678" "key"]⟩ :=
  getTempFromZip_discards_decode_error ⟨"POST", .ok "12345678", "key"⟩
    "12345678" "12345678" ⟨"X", 1, 2, 3⟩ "unexpected EOF"
    rfl rfl (by decide) (by decide)

/-- Claim C10: service-b never re-validates the zip query parameter: every
request with matching method and a non-empty api_key attempts the viacep
lookup with the raw zip interpolated into the directory URL (whatever its
shape, the empty string included), and an empty `localidade` answer then
surfaces as a 400 resolution failure after that call. -/
theorem getTemp_no_zip_revalidation (r : BRequest) (net : BNet)
    (hm : r.method = "GET") (hk : r.api_key ≠ "") :
    OutboundCall.viaCep (viaCepURL r.zip) ∈ (getTemp r net).calls ∧
    (∀ v, net.loc = .body v → fastjsonGetString v = "" →
      getTemp r net = ⟨400, .errorMsg "can not find zipcode",
        [OutboundCall.viaCep (viaCepURL r.zip)]⟩) := by
  rcases net with ⟨loc, weather⟩
  constructor
  · rcases loc with m | m | v
    · simp [getTemp, getLocation, hm, hk]
    · simp [getTemp, getLocation, hm, hk]
    · by_cases hv : fastjsonGetString v = ""
      · simp [getTemp, getLocation, hm, hk, hv]
      · rcases weather with m | m | m | doc
        · simp [getTemp, getLocation, getTempFromAPI, hm, hk, hv]
        · simp [getTemp, getLocation, getTempFromAPI, hm, hk, hv]
        · simp [getTemp, getLocation, getTempFromAPI, hm, hk, hv]
        · by_cases hc : fastjsonGetFloat64 doc.temp_c = 0 <;>
            simp [getTemp, getLocation, getTempFromAPI, hm, hk, hv, hc]
  · intro v hloc hv
    subst hloc
    simp [getTemp, getLocation, hm, hk, hv]

theorem getTemp_no_zip_revalidation_witness :
    OutboundCall.viaCep (viaCepURL "") ∈
      (getTemp ⟨"GET", "", "key"⟩ ⟨.body none, .parsed ⟨some 1, some 2⟩⟩).calls ∧
    getTemp ⟨"GET", "", "key"⟩ ⟨.body none, .parsed ⟨some 1, some 2⟩⟩ =
      ⟨400, .errorMsg "can not find zipcode", [OutboundCall.viaCep (viaCepURL "")]⟩ := by
  have h := getTemp_no_zip_revalidation ⟨"GET", "", "key"⟩
    ⟨.body none, .parsed ⟨some 1, some 2⟩⟩ rfl (by decide)
  exact ⟨h.1, h.2 none rfl rfl⟩

end FullcycleOtel
